import Mathlib

/-!
Verification of the secret-materializer scripts
`deploy/dev/prepare_context.py` and `deploy/lightsail/prepare_context.py`.

Both scripts read a JSON secret bundle, normalize heterogeneous key names
into a canonical set, derive an environment-file body when no explicit one
is supplied, validate required fields, decode and write an SSH key with
restrictive permissions, write the environment file, and append CI outputs.

The working secret bundle (after the `SecretString` unwrap) is modelled as
an association list from string keys to string values, with Python-dict
lookup and assignment semantics.  The JSON-level stage (where values may be
arbitrary JSON) is modelled separately with the `JVal` type.
-/

namespace PrepCtx

/-- Association-list model of a Python `dict` whose values are strings
(insertion order preserved, assignment updates in place). -/
abbrev Dict := List (String × String)

/-- Lookup, as Python `d.get(k)` / `d[k]`: the value at the first matching
key, `none` when absent. -/
def Dict.get? : Dict → String → Option String
  | [], _ => none
  | (k', v) :: rest, k => if k' = k then some v else Dict.get? rest k

/-- Membership, as Python `k in d`. -/
def Dict.hasKey (d : Dict) (k : String) : Bool :=
  (d.get? k).isSome

/-- Assignment, as Python `d[k] = v`: update in place when the key exists,
append otherwise. -/
def Dict.set : Dict → String → String → Dict
  | [], k, v => [(k, v)]
  | (k', v') :: rest, k, v =>
      if k' = k then (k, v) :: rest else (k', v') :: Dict.set rest k v

/-- `d[k]` on a key known to be present (defaulting to `""` otherwise, which
the scripts never rely on: every indexed access is membership-guarded). -/
def Dict.item (d : Dict) (k : String) : String :=
  (d.get? k).getD ""

/-- Python truthiness of an optional string: `None` and `""` are falsy.
This models both `if not secret.get(field)` and the `or`-chains. -/
def truthy : Option String → Bool
  | none => false
  | some v => v ≠ ""

/-- Python `secret.get(k)` seen through truthiness: `some v` exactly when
the key is present with a non-empty value.  `tget s k1 <|> tget s k2` then
models the Python expression `secret.get(k1) or secret.get(k2)` as used in
the truthiness-tested `or`-chains of the dev variant. -/
def tget (d : Dict) (k : String) : Option String :=
  match d.get? k with
  | some v => if v = "" then none else some v
  | none => none

/-! ### Base64 decoding

Model of `base64.b64decode` (CPython `binascii.a2b_base64`, non-strict
mode): characters outside the alphabet are skipped; a padding character
closing a group of 2 or 3 data characters ends the decode; a leftover
group at the end of input is an error. -/

/-- Value of a base64 alphabet character, `none` for non-alphabet input. -/
def b64val (c : Char) : Option Nat :=
  if 'A' ≤ c ∧ c ≤ 'Z' then some (c.toNat - 65)
  else if 'a' ≤ c ∧ c ≤ 'z' then some (c.toNat - 97 + 26)
  else if '0' ≤ c ∧ c ≤ '9' then some (c.toNat - 48 + 52)
  else if c = '+' then some 62
  else if c = '/' then some 63
  else none

/-- Main decoding loop: `quadPos` counts data characters in the current
group, `left` holds the pending bits, `pads` the padding characters seen
since the last data character, `acc` the output bytes in reverse. -/
def b64loop : List Char → Nat → Nat → Nat → List Nat → Option (List Nat)
  | [], quadPos, _, _, acc =>
      if quadPos = 0 then some acc.reverse else none
  | c :: rest, quadPos, left, pads, acc =>
      if c = '=' then
        if 2 ≤ quadPos then
          if 4 ≤ quadPos + (pads + 1) then some acc.reverse
          else b64loop rest quadPos left (pads + 1) acc
        else b64loop rest quadPos left pads acc
      else
        match b64val c with
        | none => b64loop rest quadPos left pads acc
        | some v =>
          match quadPos with
          | 0 => b64loop rest 1 v 0 acc
          | 1 => b64loop rest 2 (v % 16) 0 ((left * 4 + v / 16) :: acc)
          | 2 => b64loop rest 3 (v % 4) 0 ((left * 16 + v / 4) :: acc)
          | _ => b64loop rest 0 0 0 ((left * 64 + v) :: acc)

/-- `base64.b64decode` on a Python `str`: non-ASCII input fails (the
`str.encode("ascii")` step), otherwise the loop above runs. -/
def b64decode (s : String) : Option (List Nat) :=
  if s.data.any (fun c => 127 < c.toNat) then none
  else b64loop s.data 0 0 0 []

/-- Python `site_name.replace('.', '_')` (single-character replacement). -/
def dotsToUnderscores (s : String) : String :=
  ⟨s.data.map fun c => if c = '.' then '_' else c⟩

/-! ### Key normalization

Lines 40–77 of `deploy/dev/prepare_context.py` and lines 40–68 of
`deploy/lightsail/prepare_context.py` are textually identical: they build
`secret_mapped` from the parsed bundle. -/

/-- The seven canonical keys copied by the direct-mapping loop, in the
loop's order. -/
def directKeys : List String :=
  ["lightsail_host", "lightsail_user", "lightsail_port",
   "lightsail_private_key_b64", "remote_project_path",
   "docker_compose_file", "env_file_content"]

/-- One iteration of the direct-mapping loop:
`if key in secret: secret_mapped[key] = secret[key]`. -/
def copyIf (s : Dict) (m : Dict) (k : String) : Dict :=
  if s.hasKey k then m.set k (s.item k) else m

/-- `secret_mapped` as built by both scripts: the direct-mapping loop over
the seven canonical keys, then the `LIGHTSAIL_IP`, `lightsail_host`,
`lightsail_user`, `lightsail_port` and private-key blocks, in source
order. -/
def mappedSecret (s : Dict) : Dict :=
  let m := directKeys.foldl (copyIf s) []
  let m := if s.hasKey "LIGHTSAIL_IP" && !(m.hasKey "lightsail_host") then
             m.set "lightsail_host" (s.item "LIGHTSAIL_IP") else m
  let m := if s.hasKey "lightsail_host" && !(m.hasKey "lightsail_host") then
             m.set "lightsail_host" (s.item "lightsail_host") else m
  let m := if s.hasKey "lightsail_user" then
             m.set "lightsail_user" (s.item "lightsail_user")
           else if s.hasKey "LIGHTSAIL_USER" then
             m.set "lightsail_user" (s.item "LIGHTSAIL_USER") else m
  let m := if s.hasKey "lightsail_port" then
             m.set "lightsail_port" (s.item "lightsail_port")
           else if s.hasKey "LIGHTSAIL_PORT" then
             m.set "lightsail_port" (s.item "LIGHTSAIL_PORT") else m
  let m := if s.hasKey "lightsail_private_key_b64" then
             m.set "lightsail_private_key_b64" (s.item "lightsail_private_key_b64") else m
  m

/-! ### Derived environment body -/

/-- Conditional one-line segment from an `or`-chain / optional value. -/
def segOpt (o : Option String) (f : String → String) : List String :=
  match o with
  | some v => [f v]
  | none => []

/-- Conditional one-line segment from a membership test. -/
def segIf (c : Bool) (line : String) : List String :=
  if c then [line] else []

/-- Dev variant `db_host` chain (line 87):
`secret.get("DATABASE_ENDPOINT") or secret.get("RDS_HOSTNAME") or secret.get("DB_HOST")`. -/
def devDbHost (s : Dict) : Option String :=
  tget s "DATABASE_ENDPOINT" <|> tget s "RDS_HOSTNAME" <|> tget s "DB_HOST"

/-- Dev variant `db_port` chain (line 108). -/
def devDbPort (s : Dict) : Option String :=
  tget s "DATABASE_PORT" <|> tget s "RDS_PORT" <|> tget s "DB_PORT"

/-- Dev variant `DB_PORT` segment (lines 108–114): the explicit port when
some port chain value is truthy, else the 3306 default when a host chain
value is truthy, else nothing. -/
def devDbPortSeg (s : Dict) : List String :=
  match devDbPort s with
  | some p => ["DB_PORT=" ++ p]
  | none =>
    match devDbHost s with
    | some _ => ["DB_PORT=3306"]
    | none => []

/-- `SITE_NAME` segment, identical in both variants (dev lines 116–127,
lightsail lines 88–99): explicit `SITE_NAME`, else fallback derived from
`LIGHTSAIL_IP`, else fallback derived from the mapped `lightsail_host`. -/
def siteNameSeg (s m : Dict) : List String :=
  if s.hasKey "SITE_NAME" then ["SITE_NAME=" ++ s.item "SITE_NAME"]
  else if s.hasKey "LIGHTSAIL_IP" then
    ["SITE_NAME=" ++ dotsToUnderscores (s.item "LIGHTSAIL_IP")]
  else if m.hasKey "lightsail_host" then
    ["SITE_NAME=" ++ dotsToUnderscores (m.item "lightsail_host")]
  else []

/-- `env_parts` of the dev variant (lines 82–170), as the concatenation of
its conditional appends in source order. -/
def envPartsDev (s : Dict) : List String :=
  segOpt (devDbHost s) (fun v => "DB_HOST=" ++ v) ++
  segOpt (tget s "DATABASE_NAME" <|> tget s "RDS_DB_NAME" <|> tget s "DB_NAME")
    (fun v => "DB_NAME=" ++ v) ++
  segOpt (tget s "DATABASE_USERNAME" <|> tget s "RDS_USERNAME" <|> tget s "DB_USER")
    (fun v => "DB_USER=" ++ v) ++
  segOpt (tget s "DATABASE_PASSWORD" <|> tget s "RDS_PASSWORD" <|> tget s "DB_PASSWORD")
    (fun v => "DB_PASSWORD=" ++ v) ++
  segOpt (tget s "ADMIN_PASSWORD" <|> tget s "FRA_ADMIN_PASSWORD")
    (fun v => "ADMIN_PASSWORD=" ++ v) ++
  devDbPortSeg s ++
  siteNameSeg s (mappedSecret s) ++
  segIf (s.hasKey "SITE_URL") ("SITE_URL=" ++ s.item "SITE_URL") ++
  segIf (s.hasKey "BUCKET_NAME") ("BUCKET_NAME=" ++ s.item "BUCKET_NAME") ++
  segIf (s.hasKey "BUCKET_ENDPOINT") ("BUCKET_ENDPOINT=" ++ s.item "BUCKET_ENDPOINT") ++
  segIf (s.hasKey "BUCKET_REGION") ("BUCKET_REGION=" ++ s.item "BUCKET_REGION") ++
  segIf (s.hasKey "BUCKET_ACCESS_KEY_ID")
    ("BUCKET_ACCESS_KEY_ID=" ++ s.item "BUCKET_ACCESS_KEY_ID") ++
  segIf (s.hasKey "BUCKET_SECRET_ACCESS_KEY")
    ("BUCKET_SECRET_ACCESS_KEY=" ++ s.item "BUCKET_SECRET_ACCESS_KEY") ++
  segIf (s.hasKey "FILES_BACK_UP_HOURS")
    ("FILES_BACK_UP_HOURS=" ++ s.item "FILES_BACK_UP_HOURS") ++
  segIf (s.hasKey "EXISTING_SITE") ("EXISTING_SITE=" ++ s.item "EXISTING_SITE") ++
  segIf (s.hasKey "UPDATE_CODE") ("UPDATE_CODE=" ++ s.item "UPDATE_CODE") ++
  segIf (s.hasKey "CERTBOT_DOMAIN") ("CERTBOT_DOMAIN=" ++ s.item "CERTBOT_DOMAIN") ++
  segIf (s.hasKey "CERTBOT_EMAIL") ("CERTBOT_EMAIL=" ++ s.item "CERTBOT_EMAIL")

/-- Lightsail variant `DB_PORT` segment (lines 82–86): membership-based. -/
def lsDbPortSeg (s : Dict) : List String :=
  if s.hasKey "DATABASE_PORT" then ["DB_PORT=" ++ s.item "DATABASE_PORT"]
  else if s.hasKey "DATABASE_ENDPOINT" then ["DB_PORT=3306"]
  else []

/-- `env_parts` of the lightsail variant (lines 73–103). -/
def envPartsLs (s : Dict) : List String :=
  segIf (s.hasKey "DATABASE_ENDPOINT") ("DB_HOST=" ++ s.item "DATABASE_ENDPOINT") ++
  segIf (s.hasKey "DATABASE_NAME") ("DB_NAME=" ++ s.item "DATABASE_NAME") ++
  segIf (s.hasKey "DATABASE_USERNAME") ("DB_USER=" ++ s.item "DATABASE_USERNAME") ++
  segIf (s.hasKey "DATABASE_PASSWORD") ("DB_PASSWORD=" ++ s.item "DATABASE_PASSWORD") ++
  lsDbPortSeg s ++
  siteNameSeg s (mappedSecret s) ++
  segIf (s.hasKey "SITE_URL") ("SITE_URL=" ++ s.item "SITE_URL")

/-! ### Explicit env content, defaults, validation -/

/-- Lines 172–184 (dev) / 105–117 (lightsail): install the explicit
`env_file_content` or the derived body, then apply the
`remote_project_path` and `docker_compose_file` defaults. -/
def withEnv (s : Dict) (parts : List String) : Dict :=
  let m := mappedSecret s
  let m := if s.hasKey "env_file_content" then
             m.set "env_file_content" (s.item "env_file_content")
           else if parts.isEmpty then m
           else m.set "env_file_content" (String.intercalate "\n" parts ++ "\n")
  let m := if m.hasKey "remote_project_path" then m
           else m.set "remote_project_path" "/opt/frappe-hrms"
  let m := if m.hasKey "docker_compose_file" then m
           else m.set "docker_compose_file" "docker/docker-compose.yml"
  m

/-- The fully normalized bundle of the dev variant (`secret` after
line 186). -/
def withEnvDev (s : Dict) : Dict := withEnv s (envPartsDev s)

/-- The fully normalized bundle of the lightsail variant (`secret` after
line 119). -/
def withEnvLs (s : Dict) : Dict := withEnv s (envPartsLs s)

/-- `required_fields`, in source order. -/
def requiredFields : List String :=
  ["lightsail_host", "lightsail_user", "lightsail_private_key_b64",
   "remote_project_path"]

/-- `missing = [field for field in required_fields if not secret.get(field)]`. -/
def missingOf (m : Dict) : List String :=
  requiredFields.filter fun f => !truthy (m.get? f)

/-- Missing required fields of the dev variant. -/
def missingDev (s : Dict) : List String := missingOf (withEnvDev s)

/-- Missing required fields of the lightsail variant. -/
def missingLs (s : Dict) : List String := missingOf (withEnvLs s)

/-! ### The run and its observable effects -/

/-- Observable outcome of a run: exit code, stderr diagnostic, the ssh
directory mode set by `chmod`, the key-file bytes and mode, the written
environment-file contents, the CI output pairs in emission order, and the
text appended to the CI output file. -/
structure RunResult where
  exitCode : Nat
  stderr : Option String
  sshDirMode : Option Nat
  keyBytes : Option (List Nat)
  keyMode : Option Nat
  envFile : Option String
  outputs : Option (List (String × String))
  outText : Option String
deriving DecidableEq

/-- Rendering of the CI output pairs (lines 235–243 dev / 168–176
lightsail): `key=value` lines, except `env_content`, which is written as a
heredoc-delimited block `env_content<<EOF\n`, the value, then `\nEOF\n`. -/
def renderOut : List (String × String) → String
  | [] => ""
  | (k, v) :: rest =>
      (if k = "env_content" then k ++ "<<EOF\n" ++ v ++ "\nEOF\n"
       else k ++ "=" ++ v ++ "\n") ++ renderOut rest

/-- The `main` pipeline from validation onward, shared by both variants
(`envFilePath` is the only difference: `deploy/dev/.env.remote` versus
`deploy/lightsail/.env.remote`).  `home` is the invoking user's home
directory, `m` the fully normalized bundle, `gh` whether `GITHUB_OUTPUT`
is set.  Effect order follows the source: required-field check, ssh dir
chmod 0700, base64 decode, key write + chmod 0600, env-file write,
`GITHUB_OUTPUT` check, output append. -/
def runCore (envFilePath home : String) (m : Dict) (gh : Bool) : RunResult :=
  let missing := missingOf m
  if missing.isEmpty then
    let dirMode : Option Nat := some 0o700
    match b64decode (m.item "lightsail_private_key_b64") with
    | none =>
        { exitCode := 1
          stderr := some "[prepare_context] lightsail_private_key_b64 is not valid base64 data"
          sshDirMode := dirMode, keyBytes := none, keyMode := none
          envFile := none, outputs := none, outText := none }
    | some kb =>
        let envContent := (m.get? "env_file_content").getD ""
        let outs : List (String × String) :=
          [("host", m.item "lightsail_host"),
           ("user", m.item "lightsail_user"),
           ("ssh_key_path", home ++ "/.ssh/lightsail"),
           ("remote_path", m.item "remote_project_path"),
           ("port", (m.get? "lightsail_port").getD "22"),
           ("compose_file", (m.get? "docker_compose_file").getD "docker/docker-compose.yml"),
           ("env_file", envFilePath),
           ("env_content", envContent)]
        if gh then
          { exitCode := 0, stderr := none
            sshDirMode := dirMode, keyBytes := some kb, keyMode := some 0o600
            envFile := some envContent, outputs := some outs
            outText := some (renderOut outs) }
        else
          { exitCode := 1
            stderr := some "[prepare_context] GITHUB_OUTPUT is not defined"
            sshDirMode := dirMode, keyBytes := some kb, keyMode := some 0o600
            envFile := some envContent, outputs := none, outText := none }
  else
    { exitCode := 1
      stderr := some ("[prepare_context] Missing required keys in AWS secret: "
                       ++ String.intercalate ", " missing)
      sshDirMode := none, keyBytes := none, keyMode := none
      envFile := none, outputs := none, outText := none }

/-- A run of `deploy/dev/prepare_context.py` on working bundle `s`. -/
def runDev (home : String) (s : Dict) (gh : Bool) : RunResult :=
  runCore "deploy/dev/.env.remote" home (withEnvDev s) gh

/-- A run of `deploy/lightsail/prepare_context.py` on working bundle `s`. -/
def runLs (home : String) (s : Dict) (gh : Bool) : RunResult :=
  runCore "deploy/lightsail/.env.remote" home (withEnvLs s) gh

/-! ### The JSON-level parse stage (lines 28–35 of both scripts)

At this stage the parsed value may be any JSON value, so values are
modelled by `JVal`. -/

/-- A JSON value as produced by `json.loads`. -/
inductive JVal where
  | jnull : JVal
  | jbool : Bool → JVal
  | jnum : Int → JVal
  | jstr : String → JVal
  | jarr : List JVal → JVal
  | jobj : List (String × JVal) → JVal

/-- Python `isinstance(v, dict)`. -/
def JVal.isObj : JVal → Bool
  | .jobj _ => true
  | _ => false

/-- Whether the value is a Python `str`. -/
def JVal.isStr : JVal → Bool
  | .jstr _ => true
  | _ => false

/-- Whether the value is a Python `list`. -/
def JVal.isArr : JVal → Bool
  | .jarr _ => true
  | _ => false

/-- Lookup in a JSON object. -/
def jlookup : List (String × JVal) → String → Option JVal
  | [], _ => none
  | (k', v) :: rest, k => if k' = k then some v else jlookup rest k

/-- `pat` occurs as a leading segment of `l`. -/
def startsList : List Char → List Char → Bool
  | [], _ => true
  | _ :: _, [] => false
  | a :: as, b :: bs => a == b && startsList as bs

/-- `pat` occurs as a contiguous segment of `l` (Python substring test). -/
def occursIn (pat : List Char) : List Char → Bool
  | [] => startsList pat []
  | c :: rest => startsList pat (c :: rest) || occursIn pat rest

/-- Result of a Python membership test `k in v`. -/
inductive MemRes where
  | ok : Bool → MemRes
  | typeErr : MemRes
deriving DecidableEq

/-- Python `k in v` for a string `k` and an arbitrary value `v`: key
membership for a dict, substring test for a str, element equality for a
list, and an uncaught `TypeError` for int/float/bool/None. -/
def pyIn (k : String) : JVal → MemRes
  | .jobj kvs => .ok (kvs.any fun p => p.1 == k)
  | .jstr t => .ok (occursIn k.data t.data)
  | .jarr xs => .ok (xs.any fun v => match v with | .jstr t => t == k | _ => false)
  | _ => .typeErr

/-- Outcome of the guarded parse stage. -/
inductive EarlyResult where
  | parseDiag : EarlyResult
  | unhandledTypeError : EarlyResult
  | proceed : JVal → EarlyResult

/-- Lines 28–35 of both scripts, given that `json.loads(secret_json)`
already succeeded with value `v` (`parse` models `json.loads` on the inner
document): when `v` is a dict containing `SecretString`, the field's value
is re-parsed — a `JSONDecodeError` there is caught and becomes the
module-tagged `ParseError` diagnostic, while `json.loads` applied to a
non-string raises an uncaught `TypeError`; any other `v` proceeds
unchanged. -/
def secretStringStage (parse : String → Option JVal) (v : JVal) : EarlyResult :=
  match v with
  | .jobj kvs =>
    match jlookup kvs "SecretString" with
    | none => .proceed (.jobj kvs)
    | some (.jstr str) =>
      match parse str with
      | some w => .proceed w
      | none => .parseDiag
    | some _ => .unhandledTypeError
  | w => .proceed w

/-! ### Spec-side definitions

`specResolve` follows the specification's words for key normalization
("select the first present synonym from its fixed precedence list"); it is
compared against `mappedSecret`, which follows the code. -/

/-- Modelled from the spec: the value of the first synonym (in precedence
order) present in the bundle. -/
def specResolve (s : Dict) : List String → Option String
  | [] => none
  | k :: rest => if s.hasKey k then s.get? k else specResolve s rest

/-- Justification of one derived line of the dev variant: each disjunct
ties the line to the presence (truthiness, for the `or`-chains) of its
source field, except the `DB_PORT=3306` default and the `SITE_NAME`
fallback. -/
def devJustified (s : Dict) (line : String) : Prop :=
  (∃ v, devDbHost s = some v ∧ line = "DB_HOST=" ++ v) ∨
  (∃ v, (tget s "DATABASE_NAME" <|> tget s "RDS_DB_NAME" <|> tget s "DB_NAME") = some v ∧
    line = "DB_NAME=" ++ v) ∨
  (∃ v, (tget s "DATABASE_USERNAME" <|> tget s "RDS_USERNAME" <|> tget s "DB_USER") = some v ∧
    line = "DB_USER=" ++ v) ∨
  (∃ v, (tget s "DATABASE_PASSWORD" <|> tget s "RDS_PASSWORD" <|> tget s "DB_PASSWORD") = some v ∧
    line = "DB_PASSWORD=" ++ v) ∨
  (∃ v, (tget s "ADMIN_PASSWORD" <|> tget s "FRA_ADMIN_PASSWORD") = some v ∧
    line = "ADMIN_PASSWORD=" ++ v) ∨
  (∃ v, devDbPort s = some v ∧ line = "DB_PORT=" ++ v) ∨
  (devDbPort s = none ∧ (devDbHost s).isSome = true ∧ line = "DB_PORT=3306") ∨
  (s.hasKey "SITE_NAME" = true ∧ line = "SITE_NAME=" ++ s.item "SITE_NAME") ∨
  (s.hasKey "SITE_NAME" = false ∧ s.hasKey "LIGHTSAIL_IP" = true ∧
    line = "SITE_NAME=" ++ dotsToUnderscores (s.item "LIGHTSAIL_IP")) ∨
  (s.hasKey "SITE_NAME" = false ∧ s.hasKey "LIGHTSAIL_IP" = false ∧
    (mappedSecret s).hasKey "lightsail_host" = true ∧
    line = "SITE_NAME=" ++ dotsToUnderscores ((mappedSecret s).item "lightsail_host")) ∨
  (s.hasKey "SITE_URL" = true ∧ line = "SITE_URL=" ++ s.item "SITE_URL") ∨
  (s.hasKey "BUCKET_NAME" = true ∧ line = "BUCKET_NAME=" ++ s.item "BUCKET_NAME") ∨
  (s.hasKey "BUCKET_ENDPOINT" = true ∧ line = "BUCKET_ENDPOINT=" ++ s.item "BUCKET_ENDPOINT") ∨
  (s.hasKey "BUCKET_REGION" = true ∧ line = "BUCKET_REGION=" ++ s.item "BUCKET_REGION") ∨
  (s.hasKey "BUCKET_ACCESS_KEY_ID" = true ∧
    line = "BUCKET_ACCESS_KEY_ID=" ++ s.item "BUCKET_ACCESS_KEY_ID") ∨
  (s.hasKey "BUCKET_SECRET_ACCESS_KEY" = true ∧
    line = "BUCKET_SECRET_ACCESS_KEY=" ++ s.item "BUCKET_SECRET_ACCESS_KEY") ∨
  (s.hasKey "FILES_BACK_UP_HOURS" = true ∧
    line = "FILES_BACK_UP_HOURS=" ++ s.item "FILES_BACK_UP_HOURS") ∨
  (s.hasKey "EXISTING_SITE" = true ∧ line = "EXISTING_SITE=" ++ s.item "EXISTING_SITE") ∨
  (s.hasKey "UPDATE_CODE" = true ∧ line = "UPDATE_CODE=" ++ s.item "UPDATE_CODE") ∨
  (s.hasKey "CERTBOT_DOMAIN" = true ∧ line = "CERTBOT_DOMAIN=" ++ s.item "CERTBOT_DOMAIN") ∨
  (s.hasKey "CERTBOT_EMAIL" = true ∧ line = "CERTBOT_EMAIL=" ++ s.item "CERTBOT_EMAIL")

/-- Justification of one derived line of the lightsail variant (all
membership-based), with the same two exception classes. -/
def lsJustified (s : Dict) (line : String) : Prop :=
  (s.hasKey "DATABASE_ENDPOINT" = true ∧ line = "DB_HOST=" ++ s.item "DATABASE_ENDPOINT") ∨
  (s.hasKey "DATABASE_NAME" = true ∧ line = "DB_NAME=" ++ s.item "DATABASE_NAME") ∨
  (s.hasKey "DATABASE_USERNAME" = true ∧ line = "DB_USER=" ++ s.item "DATABASE_USERNAME") ∨
  (s.hasKey "DATABASE_PASSWORD" = true ∧ line = "DB_PASSWORD=" ++ s.item "DATABASE_PASSWORD") ∨
  (s.hasKey "DATABASE_PORT" = true ∧ line = "DB_PORT=" ++ s.item "DATABASE_PORT") ∨
  (s.hasKey "DATABASE_PORT" = false ∧ s.hasKey "DATABASE_ENDPOINT" = true ∧
    line = "DB_PORT=3306") ∨
  (s.hasKey "SITE_NAME" = true ∧ line = "SITE_NAME=" ++ s.item "SITE_NAME") ∨
  (s.hasKey "SITE_NAME" = false ∧ s.hasKey "LIGHTSAIL_IP" = true ∧
    line = "SITE_NAME=" ++ dotsToUnderscores (s.item "LIGHTSAIL_IP")) ∨
  (s.hasKey "SITE_NAME" = false ∧ s.hasKey "LIGHTSAIL_IP" = false ∧
    (mappedSecret s).hasKey "lightsail_host" = true ∧
    line = "SITE_NAME=" ++ dotsToUnderscores ((mappedSecret s).item "lightsail_host")) ∨
  (s.hasKey "SITE_URL" = true ∧ line = "SITE_URL=" ++ s.item "SITE_URL")

/-! ## Helper lemmas -/

theorem Dict.get?_nil (k : String) : Dict.get? [] k = none := rfl

theorem Dict.hasKey_eq (d : Dict) (k : String) :
    d.hasKey k = (d.get? k).isSome := rfl

theorem Dict.get?_set (m : Dict) (k v k' : String) :
    (m.set k v).get? k' = if k' = k then some v else m.get? k' := by
  induction m with
  | nil =>
    by_cases h : k' = k
    · simp [Dict.set, Dict.get?, h]
    · simp [Dict.set, Dict.get?, h, Ne.symm h]
  | cons p rest ih =>
    obtain ⟨a, b⟩ := p
    by_cases h1 : a = k
    · subst h1
      by_cases h2 : k' = a
      · simp [Dict.set, Dict.get?, h2]
      · simp [Dict.set, Dict.get?, h2, Ne.symm h2]
    · by_cases h2 : a = k'
      · have h3 : ¬ k' = k := by rw [← h2]; exact h1
        simp [Dict.set, Dict.get?, h1, h2, h3]
      · simp [Dict.set, Dict.get?, h1, h2, ih]

theorem Dict.get?_ite (c : Prop) [Decidable c] (m1 m2 : Dict) (k : String) :
    (if c then m1 else m2).get? k = if c then m1.get? k else m2.get? k := by
  split <;> rfl

theorem Dict.get?_eq_item (d : Dict) (k : String) (h : d.hasKey k = true) :
    d.get? k = some (d.item k) := by
  obtain ⟨v, hv⟩ := Option.isSome_iff_exists.mp h
  simp [Dict.item, hv]

theorem Dict.get?_eq_none (d : Dict) (k : String) (h : d.hasKey k = false) :
    d.get? k = none := by
  unfold Dict.hasKey at h
  cases hd : d.get? k with
  | none => rfl
  | some v => rw [hd] at h; simp at h

theorem get?_copyIf (s m : Dict) (k k' : String) :
    (copyIf s m k).get? k' =
      if s.hasKey k then (if k' = k then some (s.item k) else m.get? k')
      else m.get? k' := by
  unfold copyIf
  split <;> simp [Dict.get?_set]

theorem mapped_host (s : Dict) :
    (mappedSecret s).get? "lightsail_host" =
      if s.hasKey "lightsail_host" then s.get? "lightsail_host"
      else if s.hasKey "LIGHTSAIL_IP" then s.get? "LIGHTSAIL_IP" else none := by
  cases hh : s.get? "lightsail_host" <;>
    cases hip : s.get? "LIGHTSAIL_IP" <;>
      simp [mappedSecret, directKeys, List.foldl_cons, List.foldl_nil,
            get?_copyIf, Dict.get?_set, Dict.get?_ite, Dict.get?_nil,
            Dict.hasKey_eq, apply_ite Option.isSome, Dict.item, hh, hip]

theorem mapped_user (s : Dict) :
    (mappedSecret s).get? "lightsail_user" =
      if s.hasKey "lightsail_user" then s.get? "lightsail_user"
      else if s.hasKey "LIGHTSAIL_USER" then s.get? "LIGHTSAIL_USER" else none := by
  cases hu : s.get? "lightsail_user" <;>
    cases hU : s.get? "LIGHTSAIL_USER" <;>
      simp [mappedSecret, directKeys, List.foldl_cons, List.foldl_nil,
            get?_copyIf, Dict.get?_set, Dict.get?_ite, Dict.get?_nil,
            Dict.hasKey_eq, apply_ite Option.isSome, Dict.item, hu, hU]

theorem mapped_port (s : Dict) :
    (mappedSecret s).get? "lightsail_port" =
      if s.hasKey "lightsail_port" then s.get? "lightsail_port"
      else if s.hasKey "LIGHTSAIL_PORT" then s.get? "LIGHTSAIL_PORT" else none := by
  cases hp : s.get? "lightsail_port" <;>
    cases hP : s.get? "LIGHTSAIL_PORT" <;>
      simp [mappedSecret, directKeys, List.foldl_cons, List.foldl_nil,
            get?_copyIf, Dict.get?_set, Dict.get?_ite, Dict.get?_nil,
            Dict.hasKey_eq, apply_ite Option.isSome, Dict.item, hp, hP]

theorem mapped_key (s : Dict) :
    (mappedSecret s).get? "lightsail_private_key_b64" =
      s.get? "lightsail_private_key_b64" := by
  cases hk : s.get? "lightsail_private_key_b64" <;>
    simp [mappedSecret, directKeys, List.foldl_cons, List.foldl_nil,
          get?_copyIf, Dict.get?_set, Dict.get?_ite, Dict.get?_nil,
          Dict.hasKey_eq, apply_ite Option.isSome, Dict.item, hk]

theorem mapped_remote (s : Dict) :
    (mappedSecret s).get? "remote_project_path" =
      s.get? "remote_project_path" := by
  cases hr : s.get? "remote_project_path" <;>
    simp [mappedSecret, directKeys, List.foldl_cons, List.foldl_nil,
          get?_copyIf, Dict.get?_set, Dict.get?_ite, Dict.get?_nil,
          Dict.hasKey_eq, apply_ite Option.isSome, Dict.item, hr]

theorem mapped_compose (s : Dict) :
    (mappedSecret s).get? "docker_compose_file" =
      s.get? "docker_compose_file" := by
  cases hc : s.get? "docker_compose_file" <;>
    simp [mappedSecret, directKeys, List.foldl_cons, List.foldl_nil,
          get?_copyIf, Dict.get?_set, Dict.get?_ite, Dict.get?_nil,
          Dict.hasKey_eq, apply_ite Option.isSome, Dict.item, hc]

theorem mapped_envc (s : Dict) :
    (mappedSecret s).get? "env_file_content" =
      s.get? "env_file_content" := by
  cases he : s.get? "env_file_content" <;>
    simp [mappedSecret, directKeys, List.foldl_cons, List.foldl_nil,
          get?_copyIf, Dict.get?_set, Dict.get?_ite, Dict.get?_nil,
          Dict.hasKey_eq, apply_ite Option.isSome, Dict.item, he]

theorem withEnv_host (s : Dict) (parts : List String) :
    (withEnv s parts).get? "lightsail_host" =
      (mappedSecret s).get? "lightsail_host" := by
  simp [withEnv, Dict.get?_ite, Dict.get?_set, ite_self]

theorem withEnv_user (s : Dict) (parts : List String) :
    (withEnv s parts).get? "lightsail_user" =
      (mappedSecret s).get? "lightsail_user" := by
  simp [withEnv, Dict.get?_ite, Dict.get?_set, ite_self]

theorem withEnv_port (s : Dict) (parts : List String) :
    (withEnv s parts).get? "lightsail_port" =
      (mappedSecret s).get? "lightsail_port" := by
  simp [withEnv, Dict.get?_ite, Dict.get?_set, ite_self]

theorem withEnv_key (s : Dict) (parts : List String) :
    (withEnv s parts).get? "lightsail_private_key_b64" =
      (mappedSecret s).get? "lightsail_private_key_b64" := by
  simp [withEnv, Dict.get?_ite, Dict.get?_set, ite_self]

theorem withEnv_remote (s : Dict) (parts : List String) :
    (withEnv s parts).get? "remote_project_path" =
      if s.hasKey "remote_project_path" then s.get? "remote_project_path"
      else some "/opt/frappe-hrms" := by
  cases hr : s.get? "remote_project_path" <;>
    simp [withEnv, Dict.get?_ite, Dict.get?_set, ite_self, Dict.hasKey_eq,
          apply_ite Option.isSome, mapped_remote, hr]

theorem withEnv_compose (s : Dict) (parts : List String) :
    (withEnv s parts).get? "docker_compose_file" =
      if s.hasKey "docker_compose_file" then s.get? "docker_compose_file"
      else some "docker/docker-compose.yml" := by
  cases hc : s.get? "docker_compose_file" <;>
    simp [withEnv, Dict.get?_ite, Dict.get?_set, ite_self, Dict.hasKey_eq,
          apply_ite Option.isSome, mapped_compose, hc]

theorem withEnv_envc (s : Dict) (parts : List String) :
    (withEnv s parts).get? "env_file_content" =
      if s.hasKey "env_file_content" then some (s.item "env_file_content")
      else if parts.isEmpty then none
      else some (String.intercalate "\n" parts ++ "\n") := by
  cases he : s.get? "env_file_content" <;>
    cases hp : parts.isEmpty <;>
      simp [withEnv, Dict.get?_ite, Dict.get?_set, ite_self, Dict.hasKey_eq,
            apply_ite Option.isSome, mapped_envc, Dict.item, he, hp]

theorem specResolve_single (s : Dict) (k : String) :
    specResolve s [k] = s.get? k := by
  cases hk : s.get? k <;> simp [specResolve, Dict.hasKey_eq, hk]

theorem intercalate_single (sep x : String) : String.intercalate sep [x] = x := rfl

theorem strAppendAssoc (a b c : String) : a ++ b ++ c = a ++ (b ++ c) := by
  cases a; cases b; cases c
  exact congrArg String.mk (List.append_assoc _ _ _)

theorem strAppendEmpty (s : String) : s ++ "" = s := by
  cases s
  exact congrArg String.mk (List.append_nil _)

theorem strEmptyAppend (s : String) : "" ++ s = s := by
  cases s
  rfl

theorem renderOut_append (l1 l2 : List (String × String)) :
    renderOut (l1 ++ l2) = renderOut l1 ++ renderOut l2 := by
  induction l1 with
  | nil => simp [renderOut, strEmptyAppend]
  | cons p rest ih => simp [renderOut, ih, strAppendAssoc]

theorem strDataAppend (a b : String) : (a ++ b).data = a.data ++ b.data := by
  cases a; cases b; rfl

theorem listGetAppendLeft {α : Type} (l1 l2 : List α) (i : Nat)
    (h : i < l1.length) : (l1 ++ l2)[i]? = l1[i]? := by
  induction l1 generalizing i with
  | nil => cases h
  | cons a t ih =>
    cases i with
    | zero => simp
    | succ j => simpa using ih j (Nat.lt_of_succ_lt_succ h)

/-- Two appended strings differ when their left parts disagree at an index
inside both. -/
theorem strNeOfGet (a b v x : String) (i : Nat) (h1 : i < a.data.length)
    (h2 : i < b.data.length) (h3 : a.data[i]? ≠ b.data[i]?) :
    a ++ v ≠ b ++ x := by
  intro he
  apply h3
  have hd : a.data ++ v.data = b.data ++ x.data := by
    rw [← strDataAppend, ← strDataAppend, he]
  calc a.data[i]? = (a.data ++ v.data)[i]? := (listGetAppendLeft _ _ i h1).symm
    _ = (b.data ++ x.data)[i]? := by rw [hd]
    _ = b.data[i]? := listGetAppendLeft _ _ i h2

theorem mem_segOpt (o : Option String) (f : String → String) (line : String)
    (h : line ∈ segOpt o f) : ∃ v, o = some v ∧ line = f v := by
  cases o with
  | none => simp [segOpt] at h
  | some v =>
    simp [segOpt] at h
    exact ⟨v, rfl, h⟩

theorem mem_segIf (c : Bool) (x line : String) (h : line ∈ segIf c x) :
    c = true ∧ line = x := by
  cases c <;> simp [segIf] at h ⊢
  exact h

theorem mem_devDbPortSeg (s : Dict) (line : String) (h : line ∈ devDbPortSeg s) :
    (∃ v, devDbPort s = some v ∧ line = "DB_PORT=" ++ v) ∨
    (devDbPort s = none ∧ (devDbHost s).isSome = true ∧ line = "DB_PORT=3306") := by
  unfold devDbPortSeg at h
  cases hp : devDbPort s with
  | some v =>
    rw [hp] at h
    simp at h
    exact Or.inl ⟨v, rfl, h⟩
  | none =>
    rw [hp] at h
    cases hh : devDbHost s with
    | none => rw [hh] at h; simp at h
    | some w =>
      rw [hh] at h
      simp at h
      exact Or.inr ⟨rfl, by simp [hh], h⟩

theorem mem_lsDbPortSeg (s : Dict) (line : String) (h : line ∈ lsDbPortSeg s) :
    (s.hasKey "DATABASE_PORT" = true ∧ line = "DB_PORT=" ++ s.item "DATABASE_PORT") ∨
    (s.hasKey "DATABASE_PORT" = false ∧ s.hasKey "DATABASE_ENDPOINT" = true ∧
      line = "DB_PORT=3306") := by
  unfold lsDbPortSeg at h
  cases hp : s.hasKey "DATABASE_PORT" with
  | true =>
    rw [hp] at h
    simp at h
    exact Or.inl ⟨rfl, h⟩
  | false =>
    rw [hp] at h
    cases he : s.hasKey "DATABASE_ENDPOINT" with
    | false => rw [he] at h; simp at h
    | true =>
      rw [he] at h
      simp at h
      exact Or.inr ⟨rfl, rfl, h⟩

theorem mem_siteNameSeg (s m : Dict) (line : String) (h : line ∈ siteNameSeg s m) :
    (s.hasKey "SITE_NAME" = true ∧ line = "SITE_NAME=" ++ s.item "SITE_NAME") ∨
    (s.hasKey "SITE_NAME" = false ∧ s.hasKey "LIGHTSAIL_IP" = true ∧
      line = "SITE_NAME=" ++ dotsToUnderscores (s.item "LIGHTSAIL_IP")) ∨
    (s.hasKey "SITE_NAME" = false ∧ s.hasKey "LIGHTSAIL_IP" = false ∧
      m.hasKey "lightsail_host" = true ∧
      line = "SITE_NAME=" ++ dotsToUnderscores (m.item "lightsail_host")) := by
  unfold siteNameSeg at h
  cases h1 : s.hasKey "SITE_NAME" with
  | true =>
    rw [h1] at h
    simp at h
    exact Or.inl ⟨rfl, h⟩
  | false =>
    rw [h1] at h
    cases h2 : s.hasKey "LIGHTSAIL_IP" with
    | true =>
      rw [h2] at h
      simp at h
      exact Or.inr (Or.inl ⟨rfl, rfl, h⟩)
    | false =>
      rw [h2] at h
      cases h3 : m.hasKey "lightsail_host" with
      | false => rw [h3] at h; simp at h
      | true =>
        rw [h3] at h
        simp at h
        exact Or.inr (Or.inr ⟨rfl, rfl, rfl, h⟩)

/-! ## Claims -/

/-- Claim C7: for every canonical field, the normalized value produced by
the key-mapping block (identical in both scripts) is the value of the
first present synonym in its fixed precedence order; in particular the
lowercase canonical name wins over the uppercase alternate for
`lightsail_host`/`LIGHTSAIL_IP`, `lightsail_user`/`LIGHTSAIL_USER` and
`lightsail_port`/`LIGHTSAIL_PORT`, and the remaining four canonical fields
have only their canonical name as synonym. -/
theorem c7_synonym_precedence (s : Dict) :
    (mappedSecret s).get? "lightsail_host" =
      specResolve s ["lightsail_host", "LIGHTSAIL_IP"] ∧
    (mappedSecret s).get? "lightsail_user" =
      specResolve s ["lightsail_user", "LIGHTSAIL_USER"] ∧
    (mappedSecret s).get? "lightsail_port" =
      specResolve s ["lightsail_port", "LIGHTSAIL_PORT"] ∧
    (mappedSecret s).get? "lightsail_private_key_b64" =
      specResolve s ["lightsail_private_key_b64"] ∧
    (mappedSecret s).get? "remote_project_path" =
      specResolve s ["remote_project_path"] ∧
    (mappedSecret s).get? "docker_compose_file" =
      specResolve s ["docker_compose_file"] ∧
    (mappedSecret s).get? "env_file_content" =
      specResolve s ["env_file_content"] := by
  refine ⟨?_, ?_, ?_, ?_, ?_, ?_, ?_⟩
  · rw [mapped_host]; simp [specResolve]
  · rw [mapped_user]; simp [specResolve]
  · rw [mapped_port]; simp [specResolve]
  · rw [mapped_key, specResolve_single]
  · rw [mapped_remote, specResolve_single]
  · rw [mapped_compose, specResolve_single]
  · rw [mapped_envc, specResolve_single]

/-- Claim C4: whenever a required field is absent or empty after
normalization, both variants exit with status 1 and a diagnostic that
lists exactly the missing field names; the missing list contains a field
iff it is required and its normalized value is absent or empty; and a
bundle with no synonym for `lightsail_host` has `lightsail_host` in the
missing list. -/
theorem c4_missing_fields (home : String) (s : Dict) (gh : Bool) :
    (missingDev s ≠ [] →
      (runDev home s gh).exitCode = 1 ∧
      (runDev home s gh).stderr =
        some ("[prepare_context] Missing required keys in AWS secret: "
               ++ String.intercalate ", " (missingDev s))) ∧
    (missingLs s ≠ [] →
      (runLs home s gh).exitCode = 1 ∧
      (runLs home s gh).stderr =
        some ("[prepare_context] Missing required keys in AWS secret: "
               ++ String.intercalate ", " (missingLs s))) ∧
    (∀ f, f ∈ missingDev s ↔
      f ∈ requiredFields ∧ truthy ((withEnvDev s).get? f) = false) ∧
    (∀ f, f ∈ missingLs s ↔
      f ∈ requiredFields ∧ truthy ((withEnvLs s).get? f) = false) ∧
    (s.hasKey "lightsail_host" = false → s.hasKey "LIGHTSAIL_IP" = false →
      "lightsail_host" ∈ missingDev s ∧ "lightsail_host" ∈ missingLs s) := by
  have hmem : ∀ m : Dict, ∀ f, f ∈ missingOf m ↔
      f ∈ requiredFields ∧ truthy (m.get? f) = false := by
    intro m f
    simp [missingOf, List.mem_filter]
  have hdiag : ∀ path m, (missingOf m ≠ []) →
      (runCore path home m gh).exitCode = 1 ∧
      (runCore path home m gh).stderr =
        some ("[prepare_context] Missing required keys in AWS secret: "
               ++ String.intercalate ", " (missingOf m)) := by
    intro path m hm
    unfold runCore
    rw [if_neg (by simpa [List.isEmpty_iff] using hm)]
    exact ⟨rfl, rfl⟩
  have hhost : s.hasKey "lightsail_host" = false →
      s.hasKey "LIGHTSAIL_IP" = false →
      ∀ parts, truthy ((withEnv s parts).get? "lightsail_host") = false := by
    intro h1 h2 parts
    rw [withEnv_host, mapped_host, h1, h2]
    simp [truthy]
  refine ⟨hdiag _ _, hdiag _ _, hmem _, hmem _, ?_⟩
  intro h1 h2
  constructor
  · exact (hmem _ _).mpr ⟨by decide, hhost h1 h2 _⟩
  · exact (hmem _ _).mpr ⟨by decide, hhost h1 h2 _⟩

/-- Witness for C4: a bundle with only `lightsail_user` fails with the
missing-field diagnostic, and `lightsail_host` is among the missing
names. -/
theorem c4_witness :
    (runDev "/root" [("lightsail_user", "ubuntu")] true).exitCode = 1 ∧
    (runDev "/root" [("lightsail_user", "ubuntu")] true).stderr =
      some ("[prepare_context] Missing required keys in AWS secret: "
             ++ String.intercalate ", " (missingDev [("lightsail_user", "ubuntu")])) ∧
    "lightsail_host" ∈ missingDev [("lightsail_user", "ubuntu")] :=
  ⟨((c4_missing_fields "/root" [("lightsail_user", "ubuntu")] true).1 (by decide)).1,
   ((c4_missing_fields "/root" [("lightsail_user", "ubuntu")] true).1 (by decide)).2,
   (((c4_missing_fields "/root" [("lightsail_user", "ubuntu")] true).2.2.2.2)
      (by decide) (by decide)).1⟩

/-- Claim C3: on every bundle that passes the required-field check and
whose key field decodes, both variants write a key file whose bytes are
exactly the base64 decoding of the normalized `lightsail_private_key_b64`
value, with file mode 0600 and ssh directory mode 0700 (regardless of
whether `GITHUB_OUTPUT` is set, since those writes precede the check). -/
theorem c3_key_material (home : String) (s : Dict) (gh : Bool) (kb : List Nat) :
    (missingDev s = [] →
      b64decode ((withEnvDev s).item "lightsail_private_key_b64") = some kb →
      (runDev home s gh).keyBytes = some kb ∧
      (runDev home s gh).keyMode = some 0o600 ∧
      (runDev home s gh).sshDirMode = some 0o700) ∧
    (missingLs s = [] →
      b64decode ((withEnvLs s).item "lightsail_private_key_b64") = some kb →
      (runLs home s gh).keyBytes = some kb ∧
      (runLs home s gh).keyMode = some 0o600 ∧
      (runLs home s gh).sshDirMode = some 0o700) := by
  have h : ∀ path m, missingOf m = [] →
      b64decode (m.item "lightsail_private_key_b64") = some kb →
      (runCore path home m gh).keyBytes = some kb ∧
      (runCore path home m gh).keyMode = some 0o600 ∧
      (runCore path home m gh).sshDirMode = some 0o700 := by
    intro path m hm hb
    unfold runCore
    rw [if_pos (by simp [hm]), hb]
    cases gh <;> exact ⟨rfl, rfl, rfl⟩
  exact ⟨h _ _, h _ _⟩

/-- Witness for C3: the minimal valid bundle with key `aGVsbG8=` yields
the key bytes of `"hello"`, mode 0600 and directory mode 0700. -/
theorem c3_witness :
    (missingDev [("lightsail_host", "1.2.3.4"), ("lightsail_user", "ubuntu"),
                  ("lightsail_private_key_b64", "aGVsbG8="),
                  ("remote_project_path", "/opt/app")] = []) ∧
    ((runDev "/root" [("lightsail_host", "1.2.3.4"), ("lightsail_user", "ubuntu"),
                       ("lightsail_private_key_b64", "aGVsbG8="),
                       ("remote_project_path", "/opt/app")] true).keyBytes =
        some [104, 101, 108, 108, 111] ∧
      (runDev "/root" [("lightsail_host", "1.2.3.4"), ("lightsail_user", "ubuntu"),
                        ("lightsail_private_key_b64", "aGVsbG8="),
                        ("remote_project_path", "/opt/app")] true).keyMode = some 0o600 ∧
      (runDev "/root" [("lightsail_host", "1.2.3.4"), ("lightsail_user", "ubuntu"),
                        ("lightsail_private_key_b64", "aGVsbG8="),
                        ("remote_project_path", "/opt/app")] true).sshDirMode = some 0o700) :=
  ⟨by decide,
   (c3_key_material "/root"
      [("lightsail_host", "1.2.3.4"), ("lightsail_user", "ubuntu"),
       ("lightsail_private_key_b64", "aGVsbG8="), ("remote_project_path", "/opt/app")]
      true [104, 101, 108, 108, 111]).1 (by decide) (by decide)⟩

/-- Claim C5: on every bundle that passes the required-field check but
whose key field fails base64 decoding, both variants exit with status 1,
emit the encoding diagnostic, and write no key file. -/
theorem c5_invalid_base64 (home : String) (s : Dict) (gh : Bool) :
    (missingDev s = [] →
      b64decode ((withEnvDev s).item "lightsail_private_key_b64") = none →
      (runDev home s gh).exitCode = 1 ∧
      (runDev home s gh).stderr =
        some "[prepare_context] lightsail_private_key_b64 is not valid base64 data" ∧
      (runDev home s gh).keyBytes = none) ∧
    (missingLs s = [] →
      b64decode ((withEnvLs s).item "lightsail_private_key_b64") = none →
      (runLs home s gh).exitCode = 1 ∧
      (runLs home s gh).stderr =
        some "[prepare_context] lightsail_private_key_b64 is not valid base64 data" ∧
      (runLs home s gh).keyBytes = none) := by
  have h : ∀ path m, missingOf m = [] →
      b64decode (m.item "lightsail_private_key_b64") = none →
      (runCore path home m gh).exitCode = 1 ∧
      (runCore path home m gh).stderr =
        some "[prepare_context] lightsail_private_key_b64 is not valid base64 data" ∧
      (runCore path home m gh).keyBytes = none := by
    intro path m hm hb
    unfold runCore
    rw [if_pos (by simp [hm]), hb]
    exact ⟨rfl, rfl, rfl⟩
  exact ⟨h _ _, h _ _⟩

/-- Witness for C5: the truncated value `bm90YmFzZTY0IQ` (14 base64
characters, not a multiple of 4) makes the run fail with the encoding
diagnostic and no key bytes. -/
theorem c5_witness :
    (b64decode "bm90YmFzZTY0IQ" = none) ∧
    ((runDev "/root" [("lightsail_host", "1.2.3.4"), ("lightsail_user", "ubuntu"),
                       ("lightsail_private_key_b64", "bm90YmFzZTY0IQ"),
                       ("remote_project_path", "/opt/app")] true).exitCode = 1 ∧
     (runDev "/root" [("lightsail_host", "1.2.3.4"), ("lightsail_user", "ubuntu"),
                       ("lightsail_private_key_b64", "bm90YmFzZTY0IQ"),
                       ("remote_project_path", "/opt/app")] true).stderr =
        some "[prepare_context] lightsail_private_key_b64 is not valid base64 data" ∧
     (runDev "/root" [("lightsail_host", "1.2.3.4"), ("lightsail_user", "ubuntu"),
                       ("lightsail_private_key_b64", "bm90YmFzZTY0IQ"),
                       ("remote_project_path", "/opt/app")] true).keyBytes = none) :=
  ⟨by decide,
   (c5_invalid_base64 "/root"
      [("lightsail_host", "1.2.3.4"), ("lightsail_user", "ubuntu"),
       ("lightsail_private_key_b64", "bm90YmFzZTY0IQ"), ("remote_project_path", "/opt/app")]
      true).1 (by decide) (by decide)⟩

/-- Claim C2: when `env_file_content` is present in the bundle, whatever
environment file a run writes is byte-for-byte that value, in both
variants — the derived body is bypassed (the conclusion holds whatever
`env_parts` the derivation produced). -/
theorem c2_explicit_env_content (home : String) (s : Dict) (gh : Bool) (v w : String) :
    (s.get? "env_file_content" = some v →
      (runDev home s gh).envFile = some w → w = v) ∧
    (s.get? "env_file_content" = some v →
      (runLs home s gh).envFile = some w → w = v) := by
  have h : ∀ path parts, s.get? "env_file_content" = some v →
      (runCore path home (withEnv s parts) gh).envFile = some w → w = v := by
    intro path parts hv hw
    have henv : (withEnv s parts).get? "env_file_content" = some v := by
      rw [withEnv_envc]
      simp [Dict.hasKey_eq, Dict.item, hv]
    unfold runCore at hw
    by_cases hm : (missingOf (withEnv s parts)).isEmpty
    · rw [if_pos hm] at hw
      cases hd : b64decode ((withEnv s parts).item "lightsail_private_key_b64") with
      | none => rw [hd] at hw; simp at hw
      | some kb =>
        rw [hd] at hw
        cases gh <;> simp [henv] at hw <;> exact hw.symm
    · rw [if_neg hm] at hw
      simp at hw
  exact ⟨h _ _, h _ _⟩

/-- Witness for C2: a bundle carrying `env_file_content` `FOO=bar` (and a
`DATABASE_ENDPOINT`, whose derived lines are bypassed) writes exactly
`FOO=bar`. -/
theorem c2_witness :
    ((runDev "/root" [("lightsail_host", "1.2.3.4"), ("lightsail_user", "ubuntu"),
                       ("lightsail_private_key_b64", "aGVsbG8="),
                       ("remote_project_path", "/opt/app"),
                       ("DATABASE_ENDPOINT", "db.example"),
                       ("env_file_content", "FOO=bar")] true).envFile = some "FOO=bar") ∧
    ("FOO=bar" : String) = "FOO=bar" :=
  ⟨by decide,
   (c2_explicit_env_content "/root"
      [("lightsail_host", "1.2.3.4"), ("lightsail_user", "ubuntu"),
       ("lightsail_private_key_b64", "aGVsbG8="), ("remote_project_path", "/opt/app"),
       ("DATABASE_ENDPOINT", "db.example"), ("env_file_content", "FOO=bar")]
      true "FOO=bar" "FOO=bar").1 (by decide) (by decide)⟩

/-- Counterexample for C6, dev variant: with `DATABASE_ENDPOINT` and
`DATABASE_PORT` both *present* but the port empty, the derived body holds
`DB_PORT=3306`, not a `DB_PORT` line carrying the given (empty) port; and
with only an empty `DATABASE_ENDPOINT` (host-like field present, no port)
no `DB_PORT=3306` is injected at all. -/
theorem c6_counterexample :
    envPartsDev [("DATABASE_ENDPOINT", "h"), ("DATABASE_PORT", "")] =
      ["DB_HOST=h", "DB_PORT=3306"] ∧
    ("DB_PORT=" ++ "" ∉ envPartsDev [("DATABASE_ENDPOINT", "h"), ("DATABASE_PORT", "")]) ∧
    envPartsDev [("DATABASE_ENDPOINT", "")] = [] := by
  decide

/-- Claim C6 as amended: in the dev variant "present" means present with a
non-empty value (Python truthiness over the `DATABASE_*`/`RDS_*`/`DB_*`
chains): a truthy port-chain value `p` yields the line `DB_PORT=p`, and a
truthy host-chain value with no truthy port yields `DB_PORT=3306`.  In the
lightsail variant presence is key membership of `DATABASE_PORT` /
`DATABASE_ENDPOINT`, empty values included. -/
theorem c6_db_port_amended (s : Dict) :
    (∀ p, devDbPort s = some p → "DB_PORT=" ++ p ∈ envPartsDev s) ∧
    (devDbPort s = none → (devDbHost s).isSome = true →
      "DB_PORT=3306" ∈ envPartsDev s) ∧
    (s.hasKey "DATABASE_PORT" = true →
      "DB_PORT=" ++ s.item "DATABASE_PORT" ∈ envPartsLs s) ∧
    (s.hasKey "DATABASE_PORT" = false → s.hasKey "DATABASE_ENDPOINT" = true →
      "DB_PORT=3306" ∈ envPartsLs s) := by
  refine ⟨?_, ?_, ?_, ?_⟩
  · intro p hp
    have h : "DB_PORT=" ++ p ∈ devDbPortSeg s := by simp [devDbPortSeg, hp]
    simp only [envPartsDev, List.mem_append]
    tauto
  · intro hp hh
    obtain ⟨hv, hhv⟩ := Option.isSome_iff_exists.mp hh
    have h : "DB_PORT=3306" ∈ devDbPortSeg s := by simp [devDbPortSeg, hp, hhv]
    simp only [envPartsDev, List.mem_append]
    tauto
  · intro hp
    have h : "DB_PORT=" ++ s.item "DATABASE_PORT" ∈ lsDbPortSeg s := by
      simp [lsDbPortSeg, hp]
    simp only [envPartsLs, List.mem_append]
    tauto
  · intro hp hh
    have h : "DB_PORT=3306" ∈ lsDbPortSeg s := by simp [lsDbPortSeg, hp, hh]
    simp only [envPartsLs, List.mem_append]
    tauto

theorem Dict.get?_mem (d : Dict) (k v : String) (h : d.get? k = some v) :
    ∃ p ∈ d, p.1 = k := by
  induction d with
  | nil => simp [Dict.get?] at h
  | cons a rest ih =>
    obtain ⟨ak, av⟩ := a
    by_cases hka : ak = k
    · exact ⟨(ak, av), List.mem_cons_self _ _, hka⟩
    · simp only [Dict.get?, if_neg hka] at h
      obtain ⟨p, hp, hpk⟩ := ih h
      exact ⟨p, List.mem_cons_of_mem _ hp, hpk⟩

/-- Witness for C6 (amended): `DATABASE_ENDPOINT=db` with
`DATABASE_PORT=5432` puts `DB_PORT=5432` in the dev body, and the same
bundle without a port puts `DB_PORT=3306` in the lightsail body. -/
theorem c6_witness :
    ("DB_PORT=" ++ "5432" ∈
      envPartsDev [("DATABASE_ENDPOINT", "db"), ("DATABASE_PORT", "5432")]) ∧
    ("DB_PORT=3306" ∈ envPartsLs [("DATABASE_ENDPOINT", "db")]) :=
  ⟨(c6_db_port_amended [("DATABASE_ENDPOINT", "db"), ("DATABASE_PORT", "5432")]).1
     "5432" (by decide),
   (c6_db_port_amended [("DATABASE_ENDPOINT", "db")]).2.2.2 (by decide) (by decide)⟩

/-- Claim C1: for every bundle carrying exactly the four required fields
(with non-empty values, valid base64 for the key), both variants succeed
(exit 0), default the `port` output to `22` and the `compose_file` output
to `docker/docker-compose.yml`, and emit exactly the eight CI output keys
`host`, `user`, `ssh_key_path`, `remote_path`, `port`, `compose_file`,
`env_file`, `env_content`, in that order. -/
theorem c1_minimal_bundle (home : String) (s : Dict) (hv hu kv pv : String)
    (hk : ∀ p ∈ s, p.1 ∈ ["lightsail_host", "lightsail_user",
                           "lightsail_private_key_b64", "remote_project_path"])
    (hhost : s.get? "lightsail_host" = some hv)
    (huser : s.get? "lightsail_user" = some hu)
    (hkey : s.get? "lightsail_private_key_b64" = some kv)
    (hpath : s.get? "remote_project_path" = some pv)
    (hv0 : hv ≠ "") (hu0 : hu ≠ "") (hk0 : kv ≠ "") (hp0 : pv ≠ "")
    (kb : List Nat) (hdec : b64decode kv = some kb) :
    ((runDev home s true).exitCode = 0 ∧
     (runDev home s true).outputs = some
       [("host", hv), ("user", hu), ("ssh_key_path", home ++ "/.ssh/lightsail"),
        ("remote_path", pv), ("port", "22"),
        ("compose_file", "docker/docker-compose.yml"),
        ("env_file", "deploy/dev/.env.remote"),
        ("env_content", "SITE_NAME=" ++ dotsToUnderscores hv ++ "\n")]) ∧
    ((runLs home s true).exitCode = 0 ∧
     (runLs home s true).outputs = some
       [("host", hv), ("user", hu), ("ssh_key_path", home ++ "/.ssh/lightsail"),
        ("remote_path", pv), ("port", "22"),
        ("compose_file", "docker/docker-compose.yml"),
        ("env_file", "deploy/lightsail/.env.remote"),
        ("env_content", "SITE_NAME=" ++ dotsToUnderscores hv ++ "\n")]) := by
  have habs : ∀ k : String,
      k ∉ ["lightsail_host", "lightsail_user", "lightsail_private_key_b64",
           "remote_project_path"] → s.get? k = none := by
    intro k hkn
    cases hg : s.get? k with
    | none => rfl
    | some v =>
      obtain ⟨p, hp, hpk⟩ := Dict.get?_mem s k v hg
      exact absurd (hpk ▸ hk p hp) hkn
  have nIP : s.get? "LIGHTSAIL_IP" = none := habs _ (by decide)
  have nUS : s.get? "LIGHTSAIL_USER" = none := habs _ (by decide)
  have nPT : s.get? "LIGHTSAIL_PORT" = none := habs _ (by decide)
  have npt : s.get? "lightsail_port" = none := habs _ (by decide)
  have ncf : s.get? "docker_compose_file" = none := habs _ (by decide)
  have nef : s.get? "env_file_content" = none := habs _ (by decide)
  have n01 : s.get? "DATABASE_ENDPOINT" = none := habs _ (by decide)
  have n02 : s.get? "RDS_HOSTNAME" = none := habs _ (by decide)
  have n03 : s.get? "DB_HOST" = none := habs _ (by decide)
  have n04 : s.get? "DATABASE_NAME" = none := habs _ (by decide)
  have n05 : s.get? "RDS_DB_NAME" = none := habs _ (by decide)
  have n06 : s.get? "DB_NAME" = none := habs _ (by decide)
  have n07 : s.get? "DATABASE_USERNAME" = none := habs _ (by decide)
  have n08 : s.get? "RDS_USERNAME" = none := habs _ (by decide)
  have n09 : s.get? "DB_USER" = none := habs _ (by decide)
  have n10 : s.get? "DATABASE_PASSWORD" = none := habs _ (by decide)
  have n11 : s.get? "RDS_PASSWORD" = none := habs _ (by decide)
  have n12 : s.get? "DB_PASSWORD" = none := habs _ (by decide)
  have n13 : s.get? "ADMIN_PASSWORD" = none := habs _ (by decide)
  have n14 : s.get? "FRA_ADMIN_PASSWORD" = none := habs _ (by decide)
  have n15 : s.get? "DATABASE_PORT" = none := habs _ (by decide)
  have n16 : s.get? "RDS_PORT" = none := habs _ (by decide)
  have n17 : s.get? "DB_PORT" = none := habs _ (by decide)
  have n18 : s.get? "SITE_NAME" = none := habs _ (by decide)
  have n19 : s.get? "SITE_URL" = none := habs _ (by decide)
  have n20 : s.get? "BUCKET_NAME" = none := habs _ (by decide)
  have n21 : s.get? "BUCKET_ENDPOINT" = none := habs _ (by decide)
  have n22 : s.get? "BUCKET_REGION" = none := habs _ (by decide)
  have n23 : s.get? "BUCKET_ACCESS_KEY_ID" = none := habs _ (by decide)
  have n24 : s.get? "BUCKET_SECRET_ACCESS_KEY" = none := habs _ (by decide)
  have n25 : s.get? "FILES_BACK_UP_HOURS" = none := habs _ (by decide)
  have n26 : s.get? "EXISTING_SITE" = none := habs _ (by decide)
  have n27 : s.get? "UPDATE_CODE" = none := habs _ (by decide)
  have n28 : s.get? "CERTBOT_DOMAIN" = none := habs _ (by decide)
  have n29 : s.get? "CERTBOT_EMAIL" = none := habs _ (by decide)
  have hpartsDev : envPartsDev s = ["SITE_NAME=" ++ dotsToUnderscores hv] := by
    simp [envPartsDev, segOpt, segIf, devDbHost, devDbPort, devDbPortSeg,
          siteNameSeg, tget, Dict.hasKey_eq, Dict.item, mapped_host, hhost,
          nIP, n01, n02, n03, n04, n05, n06, n07, n08, n09, n10, n11, n12,
          n13, n14, n15, n16, n17, n18, n19, n20, n21, n22, n23, n24, n25,
          n26, n27, n28, n29]
  have hpartsLs : envPartsLs s = ["SITE_NAME=" ++ dotsToUnderscores hv] := by
    simp [envPartsLs, segOpt, segIf, lsDbPortSeg, siteNameSeg, tget,
          Dict.hasKey_eq, Dict.item, mapped_host, hhost, nIP, n01, n04, n07,
          n10, n15, n18, n19]
  have hcore : ∀ parts, parts = ["SITE_NAME=" ++ dotsToUnderscores hv] →
      ∀ path, (runCore path home (withEnv s parts) true).exitCode = 0 ∧
        (runCore path home (withEnv s parts) true).outputs = some
          [("host", hv), ("user", hu), ("ssh_key_path", home ++ "/.ssh/lightsail"),
           ("remote_path", pv), ("port", "22"),
           ("compose_file", "docker/docker-compose.yml"),
           ("env_file", path),
           ("env_content", "SITE_NAME=" ++ dotsToUnderscores hv ++ "\n")] := by
    intro parts hparts path
    subst hparts
    have hmiss : missingOf (withEnv s ["SITE_NAME=" ++ dotsToUnderscores hv]) = [] := by
      simp [missingOf, requiredFields, List.filter, withEnv_host, withEnv_user,
            withEnv_key, withEnv_remote, mapped_host, mapped_user, mapped_key,
            Dict.hasKey_eq, hhost, huser, hkey, hpath, truthy, hv0, hu0, hk0, hp0]
    have hitem : (withEnv s ["SITE_NAME=" ++ dotsToUnderscores hv]).item
        "lightsail_private_key_b64" = kv := by
      simp [Dict.item, withEnv_key, mapped_key, hkey]
    unfold runCore
    rw [if_pos (by simp [hmiss]), hitem, hdec]
    refine ⟨rfl, ?_⟩
    simp [Dict.item, withEnv_host, withEnv_user, withEnv_port, withEnv_remote,
          withEnv_compose, withEnv_envc, mapped_host, mapped_user, mapped_port,
          Dict.hasKey_eq, hhost, huser, hpath, npt, nPT, nIP, ncf, nef,
          intercalate_single, strAppendAssoc]
  constructor
  · simpa [runDev, withEnvDev] using
      hcore (envPartsDev s) hpartsDev "deploy/dev/.env.remote"
  · simpa [runLs, withEnvLs] using
      hcore (envPartsLs s) hpartsLs "deploy/lightsail/.env.remote"

/-- Witness for C1: the specification's minimal bundle
`{"lightsail_host": "1.2.3.4", "lightsail_user": "ubuntu",
"lightsail_private_key_b64": "aGVsbG8=", "remote_project_path": "/opt/app"}`
succeeds with the defaulted `port` and `compose_file` outputs and exactly
the eight output keys. -/
theorem c1_witness :
    (b64decode "aGVsbG8=" = some [104, 101, 108, 108, 111]) ∧
    (((runDev "/root" [("lightsail_host", "1.2.3.4"), ("lightsail_user", "ubuntu"),
        ("lightsail_private_key_b64", "aGVsbG8="),
        ("remote_project_path", "/opt/app")] true).exitCode = 0 ∧
      (runDev "/root" [("lightsail_host", "1.2.3.4"), ("lightsail_user", "ubuntu"),
        ("lightsail_private_key_b64", "aGVsbG8="),
        ("remote_project_path", "/opt/app")] true).outputs = some
        [("host", "1.2.3.4"), ("user", "ubuntu"),
         ("ssh_key_path", "/root" ++ "/.ssh/lightsail"),
         ("remote_path", "/opt/app"), ("port", "22"),
         ("compose_file", "docker/docker-compose.yml"),
         ("env_file", "deploy/dev/.env.remote"),
         ("env_content", "SITE_NAME=" ++ dotsToUnderscores "1.2.3.4" ++ "\n")]) ∧
     ((runLs "/root" [("lightsail_host", "1.2.3.4"), ("lightsail_user", "ubuntu"),
        ("lightsail_private_key_b64", "aGVsbG8="),
        ("remote_project_path", "/opt/app")] true).exitCode = 0 ∧
      (runLs "/root" [("lightsail_host", "1.2.3.4"), ("lightsail_user", "ubuntu"),
        ("lightsail_private_key_b64", "aGVsbG8="),
        ("remote_project_path", "/opt/app")] true).outputs = some
        [("host", "1.2.3.4"), ("user", "ubuntu"),
         ("ssh_key_path", "/root" ++ "/.ssh/lightsail"),
         ("remote_path", "/opt/app"), ("port", "22"),
         ("compose_file", "docker/docker-compose.yml"),
         ("env_file", "deploy/lightsail/.env.remote"),
         ("env_content", "SITE_NAME=" ++ dotsToUnderscores "1.2.3.4" ++ "\n")])) :=
  ⟨by decide,
   c1_minimal_bundle "/root"
     [("lightsail_host", "1.2.3.4"), ("lightsail_user", "ubuntu"),
      ("lightsail_private_key_b64", "aGVsbG8="), ("remote_project_path", "/opt/app")]
     "1.2.3.4" "ubuntu" "aGVsbG8=" "/opt/app" (by decide) rfl rfl rfl rfl
     (by decide) (by decide) (by decide) (by decide)
     [104, 101, 108, 108, 111] (by decide)⟩

/-- Claim C9: in every run that reaches output emission, the bytes
appended for `env_content` are exactly `env_content<<EOF\n`, the env-file
value, then `\nEOF\n`; equivalently the payload placed between the
delimiter lines is the value with one newline appended (so a value ending
in a newline is delivered with a trailing blank line before `EOF`). -/
theorem c9_env_content_block (home : String) (s : Dict) (v : String) :
    ((runDev home s true).envFile = some v →
      ∃ p, (runDev home s true).outText =
        some (p ++ ("env_content<<EOF\n" ++ v ++ "\nEOF\n"))) ∧
    ((runLs home s true).envFile = some v →
      ∃ p, (runLs home s true).outText =
        some (p ++ ("env_content<<EOF\n" ++ v ++ "\nEOF\n"))) ∧
    (∀ w : String, "env_content<<EOF\n" ++ w ++ "\nEOF\n" =
      "env_content<<EOF\n" ++ (w ++ "\n") ++ "EOF\n") := by
  have h : ∀ path m, (runCore path home m true).envFile = some v →
      ∃ p, (runCore path home m true).outText =
        some (p ++ ("env_content<<EOF\n" ++ v ++ "\nEOF\n")) := by
    intro path m hv
    unfold runCore at hv ⊢
    by_cases hm : (missingOf m).isEmpty
    · rw [if_pos hm] at hv ⊢
      cases hd : b64decode (m.item "lightsail_private_key_b64") with
      | none => rw [hd] at hv; simp at hv
      | some kb =>
        rw [hd] at hv
        simp at hv
        refine ⟨renderOut
          [("host", m.item "lightsail_host"), ("user", m.item "lightsail_user"),
           ("ssh_key_path", home ++ "/.ssh/lightsail"),
           ("remote_path", m.item "remote_project_path"),
           ("port", (m.get? "lightsail_port").getD "22"),
           ("compose_file", (m.get? "docker_compose_file").getD "docker/docker-compose.yml"),
           ("env_file", path)], ?_⟩
        show some (renderOut
          [("host", m.item "lightsail_host"), ("user", m.item "lightsail_user"),
           ("ssh_key_path", home ++ "/.ssh/lightsail"),
           ("remote_path", m.item "remote_project_path"),
           ("port", (m.get? "lightsail_port").getD "22"),
           ("compose_file", (m.get? "docker_compose_file").getD "docker/docker-compose.yml"),
           ("env_file", path),
           ("env_content", (m.get? "env_file_content").getD "")]) = _
        simp only [Option.some_inj]
        rw [show
          ([("host", m.item "lightsail_host"), ("user", m.item "lightsail_user"),
            ("ssh_key_path", home ++ "/.ssh/lightsail"),
            ("remote_path", m.item "remote_project_path"),
            ("port", (m.get? "lightsail_port").getD "22"),
            ("compose_file", (m.get? "docker_compose_file").getD "docker/docker-compose.yml"),
            ("env_file", path),
            ("env_content", (m.get? "env_file_content").getD "")] :
            List (String × String)) =
          [("host", m.item "lightsail_host"), ("user", m.item "lightsail_user"),
           ("ssh_key_path", home ++ "/.ssh/lightsail"),
           ("remote_path", m.item "remote_project_path"),
           ("port", (m.get? "lightsail_port").getD "22"),
           ("compose_file", (m.get? "docker_compose_file").getD "docker/docker-compose.yml"),
           ("env_file", path)] ++
          [("env_content", (m.get? "env_file_content").getD "")] from rfl,
          renderOut_append, hv]
        simp [renderOut, strAppendEmpty, strAppendAssoc]
    · rw [if_neg hm] at hv
      simp at hv
  refine ⟨h _ _, h _ _, ?_⟩
  intro w
  simp [strAppendAssoc]

/-- Witness for C9: on the minimal bundle the dev run's output text ends
in the delimited block around the written env-file value
`SITE_NAME=1_2_3_4\n` (which, ending in a newline, is delivered with a
trailing blank line before the `EOF` delimiter). -/
theorem c9_witness :
    ((runDev "/root" [("lightsail_host", "1.2.3.4"), ("lightsail_user", "ubuntu"),
        ("lightsail_private_key_b64", "aGVsbG8="),
        ("remote_project_path", "/opt/app")] true).envFile =
      some "SITE_NAME=1_2_3_4\n") ∧
    (∃ p, (runDev "/root" [("lightsail_host", "1.2.3.4"), ("lightsail_user", "ubuntu"),
        ("lightsail_private_key_b64", "aGVsbG8="),
        ("remote_project_path", "/opt/app")] true).outText =
      some (p ++ ("env_content<<EOF\n" ++ "SITE_NAME=1_2_3_4\n" ++ "\nEOF\n"))) :=
  ⟨by decide,
   (c9_env_content_block "/root"
      [("lightsail_host", "1.2.3.4"), ("lightsail_user", "ubuntu"),
       ("lightsail_private_key_b64", "aGVsbG8="), ("remote_project_path", "/opt/app")]
      "SITE_NAME=1_2_3_4\n").1 (by decide)⟩

/-- Claim C10: a `SECRET_JSON` that is valid JSON but not an object never
takes the guarded `ParseError` path — the parse stage passes it through
unchanged (the `JSONDecodeError` handler cannot fire); the membership
tests that follow then either proceed (str, list) or raise an unhandled
`TypeError` (number, bool, null) instead of producing the module-tagged
diagnostic; and an object whose `SecretString` value is not a string also
escapes the guard with an unhandled `TypeError`. -/
theorem c10_non_dict_guard (parse : String → Option JVal) :
    (∀ v : JVal, v.isObj = false →
      secretStringStage parse v = .proceed v ∧
      (v.isStr = false → v.isArr = false →
        pyIn "lightsail_host" v = .typeErr) ∧
      (v.isStr = true ∨ v.isArr = true →
        ∃ b, pyIn "lightsail_host" v = .ok b)) ∧
    (∀ kvs w, jlookup kvs "SecretString" = some w → w.isStr = false →
      secretStringStage parse (.jobj kvs) = .unhandledTypeError) := by
  constructor
  · intro v hv
    cases v <;>
      simp [JVal.isObj, JVal.isStr, JVal.isArr, secretStringStage, pyIn] at hv ⊢
  · intro kvs w hl hw
    show (match jlookup kvs "SecretString" with
      | none => EarlyResult.proceed (.jobj kvs)
      | some (.jstr str) =>
        match parse str with
        | some w => EarlyResult.proceed w
        | none => EarlyResult.parseDiag
      | some _ => EarlyResult.unhandledTypeError) = EarlyResult.unhandledTypeError
    rw [hl]
    cases w <;> simp [JVal.isStr] at hw ⊢

/-- Witness for C10: the number `7` passes through the guard and then
raises `TypeError` on the first membership test; the string `"abc"`
proceeds; an object with a numeric `SecretString` raises `TypeError` at
the inner `json.loads`. -/
theorem c10_witness :
    secretStringStage (fun _ => none) (JVal.jnum 7) =
      EarlyResult.proceed (JVal.jnum 7) ∧
    pyIn "lightsail_host" (JVal.jnum 7) = MemRes.typeErr ∧
    (∃ b, pyIn "lightsail_host" (JVal.jstr "abc") = MemRes.ok b) ∧
    secretStringStage (fun _ => none) (JVal.jobj [("SecretString", JVal.jnum 0)]) =
      EarlyResult.unhandledTypeError :=
  ⟨((c10_non_dict_guard (fun _ => none)).1 (JVal.jnum 7) rfl).1,
   ((c10_non_dict_guard (fun _ => none)).1 (JVal.jnum 7) rfl).2.1 rfl rfl,
   ((c10_non_dict_guard (fun _ => none)).1 (JVal.jstr "abc") rfl).2.2 (Or.inl rfl),
   (c10_non_dict_guard (fun _ => none)).2 [("SecretString", JVal.jnum 0)]
     (JVal.jnum 0) rfl rfl⟩

/-- Counterexample for C8: a bundle with no `SITE_NAME` field but a
`lightsail_host` gets a `SITE_NAME` line in the derived body of both
variants (the fallback of dev lines 116–127 / lightsail lines 88–99). -/
theorem c8_counterexample :
    Dict.hasKey [("lightsail_host", "1.2.3.4")] "SITE_NAME" = false ∧
    "SITE_NAME=1_2_3_4" ∈ envPartsDev [("lightsail_host", "1.2.3.4")] ∧
    "SITE_NAME=1_2_3_4" ∈ envPartsLs [("lightsail_host", "1.2.3.4")] := by
  decide

/-- Claim C8 as amended: every line of the derived body is justified by
the presence of its source field, except the `DB_PORT=3306` default and
the `SITE_NAME` fallback (derived from `LIGHTSAIL_IP` or the mapped
`lightsail_host`, dots replaced by underscores); accordingly, no
`SITE_NAME` line appears only when the bundle has no `SITE_NAME`, no
`LIGHTSAIL_IP` and no mapped `lightsail_host`. -/
theorem c8_derived_lines_amended :
    (∀ s line, line ∈ envPartsDev s → devJustified s line) ∧
    (∀ s line, line ∈ envPartsLs s → lsJustified s line) ∧
    (∀ s x, s.hasKey "SITE_NAME" = false → s.hasKey "LIGHTSAIL_IP" = false →
      (mappedSecret s).hasKey "lightsail_host" = false →
      ("SITE_NAME=" ++ x) ∉ envPartsDev s) ∧
    (∀ s x, s.hasKey "SITE_NAME" = false → s.hasKey "LIGHTSAIL_IP" = false →
      (mappedSecret s).hasKey "lightsail_host" = false →
      ("SITE_NAME=" ++ x) ∉ envPartsLs s) := by
  have hdev : ∀ s line, line ∈ envPartsDev s → devJustified s line := by
    intro s line h
    simp only [envPartsDev, List.mem_append, or_assoc] at h
    unfold devJustified
    rcases h with h|h|h|h|h|h|h|h|h|h|h|h|h|h|h|h|h|h
    · exact Or.inl (mem_segOpt _ _ _ h)
    · exact Or.inr (Or.inl (mem_segOpt _ _ _ h))
    · exact Or.inr (Or.inr (Or.inl (mem_segOpt _ _ _ h)))
    · exact Or.inr (Or.inr (Or.inr (Or.inl (mem_segOpt _ _ _ h))))
    · exact Or.inr (Or.inr (Or.inr (Or.inr (Or.inl (mem_segOpt _ _ _ h)))))
    · rcases mem_devDbPortSeg _ _ h with hc | hc
      · exact Or.inr (Or.inr (Or.inr (Or.inr (Or.inr (Or.inl hc)))))
      · exact Or.inr (Or.inr (Or.inr (Or.inr (Or.inr (Or.inr (Or.inl hc))))))
    · rcases mem_siteNameSeg _ _ _ h with hc | hc | hc
      · exact Or.inr (Or.inr (Or.inr (Or.inr (Or.inr (Or.inr (Or.inr
          (Or.inl hc)))))))
      · exact Or.inr (Or.inr (Or.inr (Or.inr (Or.inr (Or.inr (Or.inr
          (Or.inr (Or.inl hc))))))))
      · exact Or.inr (Or.inr (Or.inr (Or.inr (Or.inr (Or.inr (Or.inr
          (Or.inr (Or.inr (Or.inl hc)))))))))
    · exact Or.inr (Or.inr (Or.inr (Or.inr (Or.inr (Or.inr (Or.inr (Or.inr
        (Or.inr (Or.inr (Or.inl (mem_segIf _ _ _ h)))))))))))
    · exact Or.inr (Or.inr (Or.inr (Or.inr (Or.inr (Or.inr (Or.inr (Or.inr
        (Or.inr (Or.inr (Or.inr (Or.inl (mem_segIf _ _ _ h))))))))))))
    · exact Or.inr (Or.inr (Or.inr (Or.inr (Or.inr (Or.inr (Or.inr (Or.inr
        (Or.inr (Or.inr (Or.inr (Or.inr (Or.inl (mem_segIf _ _ _ h)))))))))))))
    · exact Or.inr (Or.inr (Or.inr (Or.inr (Or.inr (Or.inr (Or.inr (Or.inr
        (Or.inr (Or.inr (Or.inr (Or.inr (Or.inr (Or.inl
          (mem_segIf _ _ _ h))))))))))))))
    · exact Or.inr (Or.inr (Or.inr (Or.inr (Or.inr (Or.inr (Or.inr (Or.inr
        (Or.inr (Or.inr (Or.inr (Or.inr (Or.inr (Or.inr (Or.inl
          (mem_segIf _ _ _ h)))))))))))))))
    · exact Or.inr (Or.inr (Or.inr (Or.inr (Or.inr (Or.inr (Or.inr (Or.inr
        (Or.inr (Or.inr (Or.inr (Or.inr (Or.inr (Or.inr (Or.inr (Or.inl
          (mem_segIf _ _ _ h))))))))))))))))
    · exact Or.inr (Or.inr (Or.inr (Or.inr (Or.inr (Or.inr (Or.inr (Or.inr
        (Or.inr (Or.inr (Or.inr (Or.inr (Or.inr (Or.inr (Or.inr (Or.inr
          (Or.inl (mem_segIf _ _ _ h)))))))))))))))))
    · exact Or.inr (Or.inr (Or.inr (Or.inr (Or.inr (Or.inr (Or.inr (Or.inr
        (Or.inr (Or.inr (Or.inr (Or.inr (Or.inr (Or.inr (Or.inr (Or.inr
          (Or.inr (Or.inl (mem_segIf _ _ _ h))))))))))))))))))
    · exact Or.inr (Or.inr (Or.inr (Or.inr (Or.inr (Or.inr (Or.inr (Or.inr
        (Or.inr (Or.inr (Or.inr (Or.inr (Or.inr (Or.inr (Or.inr (Or.inr
          (Or.inr (Or.inr (Or.inl (mem_segIf _ _ _ h)))))))))))))))))))
    · exact Or.inr (Or.inr (Or.inr (Or.inr (Or.inr (Or.inr (Or.inr (Or.inr
        (Or.inr (Or.inr (Or.inr (Or.inr (Or.inr (Or.inr (Or.inr (Or.inr
          (Or.inr (Or.inr (Or.inr (Or.inl (mem_segIf _ _ _ h))))))))))))))))))))
    · exact Or.inr (Or.inr (Or.inr (Or.inr (Or.inr (Or.inr (Or.inr (Or.inr
        (Or.inr (Or.inr (Or.inr (Or.inr (Or.inr (Or.inr (Or.inr (Or.inr
          (Or.inr (Or.inr (Or.inr (Or.inr (mem_segIf _ _ _ h))))))))))))))))))))
  have hls : ∀ s line, line ∈ envPartsLs s → lsJustified s line := by
    intro s line h
    simp only [envPartsLs, List.mem_append, or_assoc] at h
    unfold lsJustified
    rcases h with h|h|h|h|h|h|h
    · exact Or.inl (mem_segIf _ _ _ h)
    · exact Or.inr (Or.inl (mem_segIf _ _ _ h))
    · exact Or.inr (Or.inr (Or.inl (mem_segIf _ _ _ h)))
    · exact Or.inr (Or.inr (Or.inr (Or.inl (mem_segIf _ _ _ h))))
    · rcases mem_lsDbPortSeg _ _ h with hc | hc
      · exact Or.inr (Or.inr (Or.inr (Or.inr (Or.inl hc))))
      · exact Or.inr (Or.inr (Or.inr (Or.inr (Or.inr (Or.inl hc)))))
    · rcases mem_siteNameSeg _ _ _ h with hc | hc | hc
      · exact Or.inr (Or.inr (Or.inr (Or.inr (Or.inr (Or.inr (Or.inl hc))))))
      · exact Or.inr (Or.inr (Or.inr (Or.inr (Or.inr (Or.inr (Or.inr
          (Or.inl hc)))))))
      · exact Or.inr (Or.inr (Or.inr (Or.inr (Or.inr (Or.inr (Or.inr
          (Or.inr (Or.inl hc))))))))
    · exact Or.inr (Or.inr (Or.inr (Or.inr (Or.inr (Or.inr (Or.inr (Or.inr
        (Or.inr (mem_segIf _ _ _ h)))))))))
  refine ⟨hdev, hls, ?_, ?_⟩
  · intro s x h1 h2 h3 hmem
    have hj := hdev s _ hmem
    unfold devJustified at hj
    rcases hj with ⟨v, hv, hl⟩|⟨v, hv, hl⟩|⟨v, hv, hl⟩|⟨v, hv, hl⟩|⟨v, hv, hl⟩|
      ⟨v, hv, hl⟩|⟨hp, hh, hl⟩|⟨hc, hl⟩|⟨hc, hc2, hl⟩|⟨hc, hc2, hc3, hl⟩|
      ⟨hc, hl⟩|⟨hc, hl⟩|⟨hc, hl⟩|⟨hc, hl⟩|⟨hc, hl⟩|⟨hc, hl⟩|⟨hc, hl⟩|
      ⟨hc, hl⟩|⟨hc, hl⟩|⟨hc, hl⟩|⟨hc, hl⟩
    · exact strNeOfGet "SITE_NAME=" "DB_HOST=" x v 0 (by decide) (by decide)
        (by decide) hl
    · exact strNeOfGet "SITE_NAME=" "DB_NAME=" x v 0 (by decide) (by decide)
        (by decide) hl
    · exact strNeOfGet "SITE_NAME=" "DB_USER=" x v 0 (by decide) (by decide)
        (by decide) hl
    · exact strNeOfGet "SITE_NAME=" "DB_PASSWORD=" x v 0 (by decide) (by decide)
        (by decide) hl
    · exact strNeOfGet "SITE_NAME=" "ADMIN_PASSWORD=" x v 0 (by decide) (by decide)
        (by decide) hl
    · exact strNeOfGet "SITE_NAME=" "DB_PORT=" x v 0 (by decide) (by decide)
        (by decide) hl
    · exact strNeOfGet "SITE_NAME=" "DB_PORT=" x "3306" 0 (by decide) (by decide)
        (by decide) hl
    · rw [h1] at hc; exact Bool.noConfusion hc
    · rw [h2] at hc2; exact Bool.noConfusion hc2
    · rw [h3] at hc3; exact Bool.noConfusion hc3
    · exact strNeOfGet "SITE_NAME=" "SITE_URL=" x _ 5 (by decide) (by decide)
        (by decide) hl
    · exact strNeOfGet "SITE_NAME=" "BUCKET_NAME=" x _ 0 (by decide) (by decide)
        (by decide) hl
    · exact strNeOfGet "SITE_NAME=" "BUCKET_ENDPOINT=" x _ 0 (by decide) (by decide)
        (by decide) hl
    · exact strNeOfGet "SITE_NAME=" "BUCKET_REGION=" x _ 0 (by decide) (by decide)
        (by decide) hl
    · exact strNeOfGet "SITE_NAME=" "BUCKET_ACCESS_KEY_ID=" x _ 0 (by decide)
        (by decide) (by decide) hl
    · exact strNeOfGet "SITE_NAME=" "BUCKET_SECRET_ACCESS_KEY=" x _ 0 (by decide)
        (by decide) (by decide) hl
    · exact strNeOfGet "SITE_NAME=" "FILES_BACK_UP_HOURS=" x _ 0 (by decide)
        (by decide) (by decide) hl
    · exact strNeOfGet "SITE_NAME=" "EXISTING_SITE=" x _ 0 (by decide) (by decide)
        (by decide) hl
    · exact strNeOfGet "SITE_NAME=" "UPDATE_CODE=" x _ 0 (by decide) (by decide)
        (by decide) hl
    · exact strNeOfGet "SITE_NAME=" "CERTBOT_DOMAIN=" x _ 0 (by decide) (by decide)
        (by decide) hl
    · exact strNeOfGet "SITE_NAME=" "CERTBOT_EMAIL=" x _ 0 (by decide) (by decide)
        (by decide) hl
  · intro s x h1 h2 h3 hmem
    have hj := hls s _ hmem
    unfold lsJustified at hj
    rcases hj with ⟨hc, hl⟩|⟨hc, hl⟩|⟨hc, hl⟩|⟨hc, hl⟩|⟨hc, hl⟩|⟨hp, hh, hl⟩|
      ⟨hc, hl⟩|⟨hc, hc2, hl⟩|⟨hc, hc2, hc3, hl⟩|⟨hc, hl⟩
    · exact strNeOfGet "SITE_NAME=" "DB_HOST=" x _ 0 (by decide) (by decide)
        (by decide) hl
    · exact strNeOfGet "SITE_NAME=" "DB_NAME=" x _ 0 (by decide) (by decide)
        (by decide) hl
    · exact strNeOfGet "SITE_NAME=" "DB_USER=" x _ 0 (by decide) (by decide)
        (by decide) hl
    · exact strNeOfGet "SITE_NAME=" "DB_PASSWORD=" x _ 0 (by decide) (by decide)
        (by decide) hl
    · exact strNeOfGet "SITE_NAME=" "DB_PORT=" x _ 0 (by decide) (by decide)
        (by decide) hl
    · exact strNeOfGet "SITE_NAME=" "DB_PORT=" x "3306" 0 (by decide) (by decide)
        (by decide) hl
    · rw [h1] at hc; exact Bool.noConfusion hc
    · rw [h2] at hc2; exact Bool.noConfusion hc2
    · rw [h3] at hc3; exact Bool.noConfusion hc3
    · exact strNeOfGet "SITE_NAME=" "SITE_URL=" x _ 5 (by decide) (by decide)
        (by decide) hl

/-- Witness for C8 (amended): the line `DB_HOST=db` of a bundle holding
only `DATABASE_ENDPOINT` is justified by its source field, and a bundle
with no `SITE_NAME`, `LIGHTSAIL_IP` or host synonym derives no `SITE_NAME`
line. -/
theorem c8_witness :
    devJustified [("DATABASE_ENDPOINT", "db")] "DB_HOST=db" ∧
    ("SITE_NAME=" ++ "x") ∉ envPartsDev [("DATABASE_PORT", "1")] :=
  ⟨(c8_derived_lines_amended).1 [("DATABASE_ENDPOINT", "db")] "DB_HOST=db" (by decide),
   (c8_derived_lines_amended).2.2.1 [("DATABASE_PORT", "1")] "x"
     (by decide) (by decide) (by decide)⟩

end PrepCtx
